import Mathlib

/-!
Verification of the AXIOM verifier service (Rust sources:
`services/verifier/src/main.rs`, `formal.rs`, `sandbox.rs`) against its
natural-language design document.

The Rust code is shallowly embedded: pure logic is translated to
executable Lean functions; the external collaborators (the Python parser
`rustpython_parser::parse` and the spawned interpreter process of the
execution check) are passed in as explicit oracle parameters, since the
design document places them outside the core.  Machine integers become
`Nat`/`Int` (no arithmetic in the embedded code can overflow), and the
two float literals `1.0`/`0.0` plus the single comparison `ratio < 0.5`
are embedded over `ℚ`, which is exact for them.
-/

namespace Verifier

/-! ## Rust string helpers (semantics of `str::contains`, lowercase, lines) -/

/-- List-of-chars version of "the first list starts the second". -/
def charListPre : List Char → List Char → Bool
  | [], _ => true
  | _ :: _, [] => false
  | a :: as, b :: bs => a == b && charListPre as bs

/-- List-of-chars substring test, scanning every suffix of the haystack. -/
def charListSub (needle : List Char) : List Char → Bool
  | [] => needle.isEmpty
  | c :: rest => charListPre needle (c :: rest) || charListSub needle rest

/-- Rust `haystack.contains(needle)`: substring containment. -/
def rustStrContains (hay needle : String) : Bool :=
  charListSub needle.data hay.data

/-- Rust `String::to_lowercase` (per-character lowercase; exact on ASCII,
which is all the code ever compares against). -/
def rustLower (s : String) : String :=
  String.mk (s.data.map Char.toLower)

/-- Rust `str::lines`: split on newline, drop a final empty segment,
strip a trailing carriage return from each line. -/
def rustLines (s : String) : List String :=
  let parts := s.splitOn "\n"
  let parts2 :=
    match parts.getLast? with
    | some "" => parts.dropLast
    | _ => parts
  parts2.map (fun l => if l.endsWith "\r" then l.dropRight 1 else l)

/-- Round a rational to the nearest integer, ties to even (the rounding
Rust `{:.0}` formatting applies when rendering the coverage percentage). -/
def roundHalfEven (q : ℚ) : ℤ :=
  let f : ℤ := ⌊q⌋
  let r : ℚ := q - (f : ℚ)
  if r < 1/2 then f
  else if 1/2 < r then f + 1
  else if Int.emod f 2 = 0 then f else f + 1

/-! ## The `rustpython_parser` AST fragment used by `main.rs` -/

/-- `rustpython_parser::ast::Constant`, split into the one case the
checker inspects (string literals) and everything else. -/
inductive PyConstant where
  | str (s : String)
  | otherConst
deriving DecidableEq

/-- `rustpython_parser::ast::Expr`, split into the constant case the
checker inspects and everything else. -/
inductive PyExpr where
  | constant (c : PyConstant)
  | otherExpr
deriving DecidableEq

/-- `rustpython_parser::ast::Stmt`: the three definition kinds the
checker dispatches on, bare expression statements (docstring carriers),
and everything else. -/
inductive PyStmt where
  | functionDef (name : String) (body : List PyStmt)
  | asyncFunctionDef (name : String) (body : List PyStmt)
  | classDef (name : String) (body : List PyStmt)
  | exprStmt (value : PyExpr)
  | otherStmt

/-- `rustpython_parser::ast::Mod`: `Mode::Module` parsing yields the
`Module` variant; `main.rs` ignores any other variant. -/
inductive PyMod where
  | module (body : List PyStmt)
  | otherMod

/-- The parse error surfaced by `rustpython_parser::parse`: a diagnostic
text (`e.error`) and a byte offset (`e.offset`). -/
structure ParseError where
  error : String
  offset : Nat
deriving DecidableEq

/-- The external parser, `parse(&code, Mode::Module, "<embedded>")`,
as an oracle: the spec scopes the parser itself out of the core. -/
def PyParser : Type := String → Except ParseError PyMod

/-! ## `DocstringChecker` (main.rs lines 8-48) -/

/-- The mutable visitor state of `DocstringChecker`. -/
structure DocstringChecker where
  total_definitions : Nat
  documented : Nat
  missing_docs : List String
deriving DecidableEq

/-- `DocstringChecker::new`. -/
def DocstringChecker.new : DocstringChecker :=
  { total_definitions := 0, documented := 0, missing_docs := [] }

/-- `DocstringChecker::check_def`: count the definition; if the first
body statement is a bare string-constant expression, count it as
documented, otherwise record the name as missing. -/
def DocstringChecker.check_def (st : DocstringChecker) (body : List PyStmt)
    (name : String) : DocstringChecker :=
  let st1 := { st with total_definitions := st.total_definitions + 1 }
  match body.head? with
  | some (PyStmt.exprStmt (PyExpr.constant (PyConstant.str _))) =>
      { st1 with documented := st1.documented + 1 }
  | _ => { st1 with missing_docs := st1.missing_docs ++ [name] }

/-- `DocstringChecker::visit_stmt`: dispatch on the statement kind; note
that it does not recurse into any body. -/
def DocstringChecker.visit_stmt (st : DocstringChecker) : PyStmt → DocstringChecker
  | PyStmt.functionDef name body => st.check_def body name
  | PyStmt.asyncFunctionDef name body => st.check_def body name
  | PyStmt.classDef name body => st.check_def body name
  | _ => st

/-- `DocstringChecker::check`: visit each top-level statement in order. -/
def DocstringChecker.check (st : DocstringChecker) (stmts : List PyStmt) :
    DocstringChecker :=
  stmts.foldl DocstringChecker.visit_stmt st

/-! ## Protobuf messages (`verifier.proto`, as used by `main.rs`) -/

/-- One finding in a response. -/
structure Issue where
  code : String
  message : String
  severity : String
  line : Int
  column : Int
deriving DecidableEq

/-- A behavioral contract carried by a request (read only by the
formal tier). -/
structure Contract where
  id : String
  expression : String
deriving DecidableEq

/-- The request message. -/
structure VerifyRequest where
  code : String
  language : String
  checks : List String
  contracts : List Contract
deriving DecidableEq

/-- The response message.  The two float literals `1.0` and `0.0` of
`main.rs` are embedded exactly over `ℚ`. -/
structure VerifyResponse where
  valid : Bool
  score : ℚ
  issues : List Issue
deriving DecidableEq

/-- Outcome of one named check/tier (spec section 3), used by the
formal tier. -/
structure VerificationResult where
  check_name : String
  status : String
  message : String
  score : ℚ
  tier : Nat
deriving DecidableEq

/-! ## `SmtVerifier` (formal.rs) -/

/-- Namespace holder for the constraint verifier of `formal.rs`. -/
structure SmtVerifier where
deriving DecidableEq

/-- `SmtVerifier::verify_constraints`: the shipped body is the admitted
mock "if any constraint contains the substring `fail` or `false`,
return false, else true". -/
def SmtVerifier.verify_constraints (constraints : List String) : Bool :=
  constraints.all fun c =>
    !(rustStrContains c "fail" || rustStrContains c "false")

/-! ## `WasmSandbox` (sandbox.rs) -/

/-- `sandbox.rs` `ExecutionResult`. -/
structure ExecutionResult where
  output : String
  duration_ms : Nat
  fuel_consumed : Nat
deriving DecidableEq

/-- `WasmSandbox::execute`: the shipped body sleeps, measures the
elapsed time (here an oracle argument `elapsed_ms`, since wall-clock
time is external), and unconditionally returns a success record with
`fuel_consumed = 500`; `timeout_ms` is never read. -/
def WasmSandbox.execute (_code : List Nat) (_timeout_ms : Nat)
    (elapsed_ms : Nat) : Except String ExecutionResult :=
  Except.ok
    { output := "Execution successful (Simulated WASM Sandbox)"
      duration_ms := elapsed_ms
      fuel_consumed := 500 }

/-! ## `MyVerifier::verify` (main.rs lines 60-207) -/

/-- What happened in the execution check's interaction with the host:
the temp-file write failed (the Rust code then does nothing at all),
the interpreter could not be spawned, or it ran and produced the given
stdout/stderr.  This is the oracle for the spawned-process collaborator. -/
inductive ExecOutcome where
  | fileFail
  | spawnFail
  | ran (stdout : String) (stderr : String)
deriving DecidableEq

/-- The language guard of all three checks:
`req.language.to_lowercase() == "python" || req.language.is_empty()`. -/
def langIsPython (language : String) : Bool :=
  rustLower language == "python" || language.isEmpty

/-- Step 1 of `verify` (Syntax Check): the running `(valid, issues)`
state after the syntax check. -/
def syntaxStep (parse : PyParser) (req : VerifyRequest) : Bool × List Issue :=
  if langIsPython req.language then
    match parse req.code with
    | Except.ok _ => (true, [])
    | Except.error e =>
        (false,
         [{ code := "SYNTAX_ERROR", message := e.error, severity := "error",
            line := 0, column := Int.ofNat e.offset }])
  else (true, [])

/-- The coverage test of main.rs line 100, `ratio < 0.5`, over the exact
ratio `documented / total : ℚ` (the `f32` division of the code is exact
at every count that can arise below `2^24` definitions). -/
def ratioLtHalf (documented total : Nat) : Prop :=
  (documented : ℚ) / (total : ℚ) < 1/2

instance (d t : Nat) : Decidable (ratioLtHalf d t) :=
  decidable_of_iff (t = 0 ∨ 2 * d < t)
    (by
      unfold ratioLtHalf
      rcases Nat.eq_zero_or_pos t with h | h
      · subst h
        norm_num
      · have ht : (0:ℚ) < (t : ℚ) := by exact_mod_cast h
        rw [div_lt_div_iff₀ ht (by norm_num : (0:ℚ) < 2)]
        constructor
        · rintro (h0 | hlt)
          · exact absurd h0 (Nat.pos_iff_ne_zero.mp h)
          · have h2 : ((2 * d : ℕ) : ℚ) < (t : ℚ) := by exact_mod_cast hlt
            push_cast at h2
            linarith
        · intro hq
          right
          have h2 : ((2 * d : ℕ) : ℚ) < (t : ℚ) := by push_cast; linarith
          exact_mod_cast h2)

/-- The summary coverage issue built at main.rs line 102. -/
def summaryIssue (documented total : Nat) (ratio : ℚ) : Issue :=
  { code := "DOCSTRING_MISSING"
    message := "Low docstring coverage: " ++ toString documented ++ "/"
      ++ toString total ++ " (" ++ toString (roundHalfEven (ratio * 100)) ++ "%)"
    severity := "warning", line := 0, column := 0 }

/-- The per-definition coverage issue built at main.rs line 111. -/
def perDefIssue (name : String) : Issue :=
  { code := "DOCSTRING_MISSING"
    message := "\x27" ++ name ++ "\x27 lacks a docstring"
    severity := "warning", line := 0, column := 0 }

/-- Step 2 of `verify` (Docstring Check).  Note the faithful placement:
the per-definition issue loop sits outside the `ratio < 0.5` branch but
inside `total_definitions > 0`. -/
def docstringStep (parse : PyParser) (req : VerifyRequest)
    (st : Bool × List Issue) : Bool × List Issue :=
  if req.checks.contains "docstrings" && langIsPython req.language then
    match parse req.code with
    | Except.ok (PyMod.module body) =>
        let checker := DocstringChecker.check DocstringChecker.new body
        if checker.total_definitions > 0 then
          let ratio : ℚ :=
            (checker.documented : ℚ) / (checker.total_definitions : ℚ)
          let st1 :=
            if ratioLtHalf checker.documented checker.total_definitions then
              (false,
               st.2 ++ [summaryIssue checker.documented
                          checker.total_definitions ratio])
            else st
          (st1.1, st1.2 ++ (checker.missing_docs.take 5).map perDefIssue)
        else st
    | Except.ok PyMod.otherMod => st
    | Except.error _ => st
  else st

/-- The body of the execution check after the temp file was written,
as a function of the process outcome (main.rs lines 153-198). -/
def runExecOutcome (outc : ExecOutcome) (st : Bool × List Issue) :
    Bool × List Issue :=
  match outc with
  | ExecOutcome.fileFail => st
  | ExecOutcome.spawnFail =>
      (false,
       st.2 ++ [{ code := "EXECUTION_SPAWN_FAIL",
                  message := "Failed to spawn python interpreter",
                  severity := "error", line := 0, column := 0 }])
  | ExecOutcome.ran stdout stderr =>
      if rustStrContains stdout "__EXECUTION_SUCCESS__" then st
      else if rustStrContains stdout "__EXECUTION_ERROR__" then
        let errMsg :=
          ((rustLines stdout).find? fun l =>
              rustStrContains l "__EXECUTION_ERROR__").getD
            "Unknown execution error"
        (false,
         st.2 ++ [{ code := "EXECUTION_ERROR", message := errMsg,
                    severity := "error", line := 0, column := 0 }])
      else
        (false,
         st.2 ++ [{ code := "EXECUTION_FAIL",
                    message := "Execution failed or no output. Stderr: " ++ stderr,
                    severity := "error", line := 0, column := 0 }])

/-- Step 3 of `verify` (Execution Check), guarded like the others. -/
def executionStep (outc : ExecOutcome) (req : VerifyRequest)
    (st : Bool × List Issue) : Bool × List Issue :=
  if req.checks.contains "execution" && langIsPython req.language then
    runExecOutcome outc st
  else st

/-- `MyVerifier::verify`: the three sequential steps, then the response
with `score = if valid { 1.0 } else { 0.0 }`. -/
def MyVerifier.verify (parse : PyParser) (outc : ExecOutcome)
    (req : VerifyRequest) : VerifyResponse :=
  let st := executionStep outc req (docstringStep parse req (syntaxStep parse req))
  { valid := st.1, score := if st.1 then 1 else 0, issues := st.2 }

/-! ## Spec-side definitions -/

mutual

/-- Modelled from the spec: the number of definitions one statement
contributes when "traversal must visit nested definitions (definitions
inside class bodies, functions inside functions) so coverage reflects
the whole tree, in AST pre-order" (spec 4.1). -/
def specCountDefsStmt : PyStmt → Nat
  | PyStmt.functionDef _ body => 1 + specCountDefsTree body
  | PyStmt.asyncFunctionDef _ body => 1 + specCountDefsTree body
  | PyStmt.classDef _ body => 1 + specCountDefsTree body
  | _ => 0

/-- Modelled from the spec: the whole-tree definition count over a
statement list, per spec 4.1. -/
def specCountDefsTree : List PyStmt → Nat
  | [] => 0
  | s :: rest => specCountDefsStmt s + specCountDefsTree rest

end

/-- Whether a statement is one of the three definition kinds the
checker dispatches on. -/
def isDefStmt : PyStmt → Bool
  | PyStmt.functionDef _ _ => true
  | PyStmt.asyncFunctionDef _ _ => true
  | PyStmt.classDef _ _ => true
  | _ => false

/-- The number of top-level definition statements in a list. -/
def countTopDefs (stmts : List PyStmt) : Nat :=
  (stmts.filter isDefStmt).length

/-- Modelled from the spec: the formal tier of the Verification
Orchestrator (spec 4.4 step 4), which is absent from `src/` (`main.rs`
never reads `contracts`; only `formal.rs`'s leaf verifier is present).
"If the request carries one or more Contracts, extract their
expressions in order, run 4.3; on `satisfiable = false`, set
`valid = false` and multiply `score *= 0.5`; append one
VerificationResult (`check_name = "constraint_solver"`, `tier = 3`)."
It calls the real `SmtVerifier.verify_constraints` from `src/`. -/
def formalTier (contracts : List Contract) (valid : Bool) (score : ℚ) :
    Bool × ℚ × List VerificationResult :=
  if contracts.isEmpty then (valid, score, [])
  else if SmtVerifier.verify_constraints (contracts.map Contract.expression) then
    (valid, score, [])
  else
    (false, score * (1/2),
     [{ check_name := "constraint_solver", status := "failed",
        message := "Contracts unsatisfiable", score := 0, tier := 3 }])

/-! ## Concrete fixtures (oracle instances realizable by the real
parser and interpreter, used to instantiate the theorems) -/

/-- AST of `def f():\n    "doc"\n    return 1\ndef g():\n    return 1`:
two top-level functions, only the first documented. -/
def astTwoDefs : List PyStmt :=
  [PyStmt.functionDef "f"
     [PyStmt.exprStmt (PyExpr.constant (PyConstant.str "doc")), PyStmt.otherStmt],
   PyStmt.functionDef "g" [PyStmt.otherStmt]]

/-- A parser oracle answering with `astTwoDefs` (what the real parser
returns on the source above). -/
def parseTwoDefs : PyParser := fun _ => Except.ok (PyMod.module astTwoDefs)

/-- AST of `class C:\n    def m(self):\n        pass`: one class with
one method nested in its body. -/
def astNested : List PyStmt :=
  [PyStmt.classDef "C" [PyStmt.functionDef "m" [PyStmt.otherStmt]]]

/-- A parser oracle that always fails, as the real parser does on
`def f(:` (diagnostic text and offset as reported by rustpython). -/
def parseFailing : PyParser :=
  fun _ => Except.error { error := "invalid syntax. Got unexpected token :", offset := 7 }

/-- A parser oracle answering with the empty module (what the real
parser returns on empty source). -/
def parseEmptyModule : PyParser := fun _ => Except.ok (PyMod.module [])

/-- Request exercising the docstring check on the two-function source. -/
def reqDocTwo : VerifyRequest :=
  { code := "def f():\n    \x22doc\x22\n    return 1\ndef g():\n    return 1\n",
    language := "", checks := ["docstrings"], contracts := [] }

/-- Request with no recognized checks and no contracts, on unparseable
source. -/
def reqNoChecks : VerifyRequest :=
  { code := "def f(:\n", language := "", checks := [], contracts := [] }

/-- AST of `def f():\n    return 1`: a single undocumented function. -/
def astOneDef : List PyStmt := [PyStmt.functionDef "f" [PyStmt.otherStmt]]

/-- A parser oracle answering with `astOneDef` (what the real parser
returns on the source above). -/
def parseOneDef : PyParser := fun _ => Except.ok (PyMod.module astOneDef)

/-- Request exercising the docstring check on the one-function source
(scenario A of the spec). -/
def reqDocOne : VerifyRequest :=
  { code := "def f():\n    return 1\n", language := "",
    checks := ["docstrings"], contracts := [] }

/-- Request with unparseable source and both checks requested. -/
def reqBadSyntax : VerifyRequest :=
  { code := "def f(:\n", language := "",
    checks := ["docstrings", "execution"], contracts := [] }

/-- Request whose only check name is unrecognized, with parseable
source and no contracts. -/
def reqUnrecognized : VerifyRequest :=
  { code := "x = 1\n", language := "", checks := ["lint"], contracts := [] }

/-- A parser oracle answering with a one-statement module (what the
real parser returns on `x = 1`: one assignment statement). -/
def parseAssign : PyParser := fun _ => Except.ok (PyMod.module [PyStmt.otherStmt])

end Verifier

namespace Verifier

/-! ## Helper lemmas -/

theorem check_def_total (st : DocstringChecker) (body : List PyStmt) (name : String) :
    (st.check_def body name).total_definitions = st.total_definitions + 1 := by
  unfold DocstringChecker.check_def
  split <;> rfl

theorem visit_stmt_total (st : DocstringChecker) (s : PyStmt) :
    (st.visit_stmt s).total_definitions =
      st.total_definitions + (if isDefStmt s then 1 else 0) := by
  cases s <;> simp [DocstringChecker.visit_stmt, isDefStmt, check_def_total]

theorem check_total (stmts : List PyStmt) (st : DocstringChecker) :
    (st.check stmts).total_definitions = st.total_definitions + countTopDefs stmts := by
  induction stmts generalizing st with
  | nil => simp [DocstringChecker.check, countTopDefs]
  | cons s rest ih =>
      have hstep : DocstringChecker.check st (s :: rest) =
          DocstringChecker.check (st.visit_stmt s) rest := rfl
      rw [hstep, ih, visit_stmt_total]
      unfold countTopDefs
      cases hs : isDefStmt s <;> (simp [List.filter_cons, hs]; try omega)

theorem verify_eq (parse : PyParser) (outc : ExecOutcome) (req : VerifyRequest) :
    MyVerifier.verify parse outc req =
      { valid := (executionStep outc req
          (docstringStep parse req (syntaxStep parse req))).1,
        score := if (executionStep outc req
          (docstringStep parse req (syntaxStep parse req))).1 then 1 else 0,
        issues := (executionStep outc req
          (docstringStep parse req (syntaxStep parse req))).2 } := rfl

theorem syntaxStep_not_python (parse : PyParser) (req : VerifyRequest)
    (h : langIsPython req.language = false) : syntaxStep parse req = (true, []) := by
  unfold syntaxStep
  rw [h]
  simp

theorem syntaxStep_of_ok (parse : PyParser) (req : VerifyRequest) (m : PyMod)
    (hm : parse req.code = Except.ok m) : syntaxStep parse req = (true, []) := by
  unfold syntaxStep
  split
  · rw [hm]
  · rfl

theorem syntaxStep_of_error (parse : PyParser) (req : VerifyRequest) (e : ParseError)
    (hl : langIsPython req.language = true) (hp : parse req.code = Except.error e) :
    syntaxStep parse req =
      (false, [{ code := "SYNTAX_ERROR", message := e.error, severity := "error",
                 line := 0, column := Int.ofNat e.offset }]) := by
  unfold syntaxStep
  rw [hl, hp]
  simp

theorem docstringStep_not_python (parse : PyParser) (req : VerifyRequest)
    (st : Bool × List Issue) (h : langIsPython req.language = false) :
    docstringStep parse req st = st := by
  unfold docstringStep
  rw [h]
  simp

theorem docstringStep_not_requested (parse : PyParser) (req : VerifyRequest)
    (st : Bool × List Issue) (h : req.checks.contains "docstrings" = false) :
    docstringStep parse req st = st := by
  unfold docstringStep
  rw [h]
  simp

theorem docstringStep_of_error (parse : PyParser) (req : VerifyRequest)
    (st : Bool × List Issue) (e : ParseError) (hp : parse req.code = Except.error e) :
    docstringStep parse req st = st := by
  unfold docstringStep
  split
  · rw [hp]
  · rfl

theorem executionStep_not_python (outc : ExecOutcome) (req : VerifyRequest)
    (st : Bool × List Issue) (h : langIsPython req.language = false) :
    executionStep outc req st = st := by
  unfold executionStep
  rw [h]
  simp

theorem executionStep_not_requested (outc : ExecOutcome) (req : VerifyRequest)
    (st : Bool × List Issue) (h : req.checks.contains "execution" = false) :
    executionStep outc req st = st := by
  unfold executionStep
  rw [h]
  simp

theorem runExecOutcome_codes (outc : ExecOutcome) (st : Bool × List Issue) :
    (runExecOutcome outc st).2 = st.2 ∨
    ∃ i, (runExecOutcome outc st).2 = st.2 ++ [i] ∧
      (i.code = "EXECUTION_SPAWN_FAIL" ∨ i.code = "EXECUTION_ERROR" ∨
        i.code = "EXECUTION_FAIL") := by
  cases outc with
  | fileFail => exact Or.inl rfl
  | spawnFail => exact Or.inr ⟨_, rfl, Or.inl rfl⟩
  | ran stdout stderr =>
      unfold runExecOutcome
      cases h1 : rustStrContains stdout "__EXECUTION_SUCCESS__" with
      | true => left; simp [h1]
      | false =>
          cases h2 : rustStrContains stdout "__EXECUTION_ERROR__" with
          | true =>
              right
              exact ⟨{ code := "EXECUTION_ERROR",
                       message := ((rustLines stdout).find? fun l =>
                           rustStrContains l "__EXECUTION_ERROR__").getD
                         "Unknown execution error",
                       severity := "error", line := 0, column := 0 },
                     by simp [h1, h2], Or.inr (Or.inl rfl)⟩
          | false =>
              right
              exact ⟨{ code := "EXECUTION_FAIL",
                       message := "Execution failed or no output. Stderr: " ++ stderr,
                       severity := "error", line := 0, column := 0 },
                     by simp [h1, h2], Or.inr (Or.inr rfl)⟩

theorem runExecOutcome_valid_false (outc : ExecOutcome) (st : Bool × List Issue)
    (h : st.1 = false) : (runExecOutcome outc st).1 = false := by
  cases outc with
  | fileFail => exact h
  | spawnFail => rfl
  | ran stdout stderr =>
      unfold runExecOutcome
      cases h1 : rustStrContains stdout "__EXECUTION_SUCCESS__" with
      | true => simpa [h1] using h
      | false =>
          cases h2 : rustStrContains stdout "__EXECUTION_ERROR__" with
          | true => simp [h1, h2]
          | false => simp [h1, h2]

theorem executionStep_valid_false (outc : ExecOutcome) (req : VerifyRequest)
    (st : Bool × List Issue) (h : st.1 = false) :
    (executionStep outc req st).1 = false := by
  unfold executionStep
  split
  · exact runExecOutcome_valid_false outc st h
  · exact h

theorem executionStep_filter (outc : ExecOutcome) (req : VerifyRequest)
    (st : Bool × List Issue) (c : String)
    (h1 : c ≠ "EXECUTION_SPAWN_FAIL") (h2 : c ≠ "EXECUTION_ERROR")
    (h3 : c ≠ "EXECUTION_FAIL") :
    ((executionStep outc req st).2.filter fun i => i.code == c) =
      st.2.filter fun i => i.code == c := by
  unfold executionStep
  split
  · rcases runExecOutcome_codes outc st with h | ⟨i, hi, hcode⟩
    · rw [h]
    · rw [hi, List.filter_append]
      have hfalse : (i.code == c) = false := by
        refine beq_eq_false_iff_ne.mpr ?_
        rcases hcode with h | h | h <;> rw [h]
        · exact h1.symm
        · exact h2.symm
        · exact h3.symm
      simp [List.filter_cons, hfalse]
  · rfl

end Verifier

namespace Verifier

/-! ## Claim theorems -/

/-- Claim C1 (refutation by evaluation): the constraint set
`["x > 0", "x < 0"]` admits no satisfying assignment of `x`, so a
correct `verify_constraints` must return `false`; the shipped code
returns `true`, because neither string contains the substring `fail`
or `false`.  This contradicts the claimed iff-correctness and the
function's own doc comment. -/
theorem C1_contradiction_reported_satisfiable :
    SmtVerifier.verify_constraints ["x > 0", "x < 0"] = true := by decide

/-- Claim C8: `verify_constraints` on the empty constraint sequence
returns `satisfiable = true` (the loop body never runs). -/
theorem C8_empty_constraints_satisfiable :
    SmtVerifier.verify_constraints ([] : List String) = true := rfl

/-- Claim C5 (refutation by evaluation, against the spec-modelled
orchestrator `formalTier` calling the real `verify_constraints`): for
contracts `["x > 0", "x < 0"]` starting from `valid = true, score = 1`,
the formal tier leaves the verdict at `valid = true, score = 1` with no
failed `constraint_solver` result, because the mock solver reports the
contradiction satisfiable — instead of the claimed
`valid = false, score = 0.5` with one failed tier-3 result. -/
theorem C5_no_penalty_on_contradiction :
    formalTier [{ id := "c1", expression := "x > 0" },
                { id := "c2", expression := "x < 0" }] true 1 =
      (true, 1, ([] : List VerificationResult)) := by
  unfold formalTier
  norm_num
  decide

/-- Claim C6 (refutation by evaluation): `WasmSandbox::execute` ignores
`timeout_ms` and the fuel budget entirely: for every input — including
a zero timeout — it returns a success record with `fuel_consumed = 500`,
and no `EXECUTION_TIMEOUT` or `EXECUTION_FUEL_EXHAUSTED` failure kind
exists anywhere in its code. -/
theorem C6_execute_always_succeeds (code : List Nat) (timeout_ms elapsed_ms : Nat) :
    WasmSandbox.execute code timeout_ms elapsed_ms =
      Except.ok { output := "Execution successful (Simulated WASM Sandbox)",
                  duration_ms := elapsed_ms, fuel_consumed := 500 } := rfl

/-- Claim C10: in every response produced by `verify`, the score is
`1.0` exactly when `valid` is true and `0.0` otherwise; in particular
it is never strictly between 0 and 1. -/
theorem C10_binary_score (parse : PyParser) (outc : ExecOutcome) (req : VerifyRequest) :
    (MyVerifier.verify parse outc req).score =
      (if (MyVerifier.verify parse outc req).valid then (1 : ℚ) else 0) ∧
    ((MyVerifier.verify parse outc req).score = 1 ∨
      (MyVerifier.verify parse outc req).score = 0) := by
  constructor
  · rfl
  · rw [verify_eq]
    cases (executionStep outc req (docstringStep parse req (syntaxStep parse req))).1
    · right; rfl
    · left; rfl

/-- Claim C3 (counterexample): for the source `class C:` containing one
method `m`, the whole-tree pre-order definition count of the spec is 2,
but the checker's traversal leaves `total_definitions = 1`: it never
descends into the class body. -/
theorem C3_counterexample :
    (DocstringChecker.check DocstringChecker.new astNested).total_definitions ≠
      specCountDefsTree astNested ∧
    (DocstringChecker.check DocstringChecker.new astNested).total_definitions = 1 ∧
    specCountDefsTree astNested = 2 := by
  refine ⟨?_, rfl, by decide⟩
  have h2 : specCountDefsTree astNested = 2 := by decide
  rw [h2]
  decide

/-- Claim C3 (amended): the documentation-coverage traversal counts
exactly the top-level function, async-function and class definitions,
in order; definitions nested inside class bodies or inside functions
are never visited, so `total_definitions` is the number of top-level
definitions, not the whole-tree count. -/
theorem C3_top_level_only (stmts : List PyStmt) :
    (DocstringChecker.check DocstringChecker.new stmts).total_definitions =
      countTopDefs stmts := by
  have h := check_total stmts DocstringChecker.new
  simpa [DocstringChecker.new] using h

/-- Claim C9: a request whose language is non-empty and, lowercased,
differs from "python" skips every tier: the response is
`valid = true, score = 1.0` with an empty issue list, whatever the
source, checks and contracts. -/
theorem C9_unsupported_language_bypass (parse : PyParser) (outc : ExecOutcome)
    (req : VerifyRequest) (hne : req.language.isEmpty = false)
    (hlow : rustLower req.language ≠ "python") :
    MyVerifier.verify parse outc req =
      { valid := true, score := 1, issues := [] } := by
  have hlang : langIsPython req.language = false := by
    unfold langIsPython
    rw [hne, beq_eq_false_iff_ne.mpr hlow]
    rfl
  rw [verify_eq, syntaxStep_not_python parse req hlang,
      docstringStep_not_python parse req _ hlang,
      executionStep_not_python outc req _ hlang]
  rfl

/-- Claim C9 witness: a concrete request in language "Rust" with both
checks requested and a spawn failure on the execution path still
bypasses every tier. -/
theorem C9_witness :
    ("Rust" : String).isEmpty = false ∧ rustLower "Rust" ≠ "python" ∧
    MyVerifier.verify parseEmptyModule ExecOutcome.spawnFail
      { code := "", language := "Rust", checks := ["docstrings", "execution"],
        contracts := [] } =
      { valid := true, score := 1, issues := [] } :=
  ⟨rfl, by decide,
   C9_unsupported_language_bypass parseEmptyModule ExecOutcome.spawnFail
     { code := "", language := "Rust", checks := ["docstrings", "execution"],
       contracts := [] } rfl (by decide)⟩

end Verifier

namespace Verifier

/-- Claim C4 (counterexample): a request with an empty check set and an
empty contract list, in the default language, on a source that fails to
parse, yields `valid = false` and `score = 0` — the syntax check is not
gated on the requested checks, so the claimed unconditional vacuous
pass is false. -/
theorem C4_counterexample :
    reqNoChecks.checks = [] ∧ reqNoChecks.contracts = [] ∧
    (MyVerifier.verify parseFailing ExecOutcome.fileFail reqNoChecks).valid = false ∧
    (MyVerifier.verify parseFailing ExecOutcome.fileFail reqNoChecks).score = 0 :=
  ⟨rfl, rfl, by decide, rfl⟩

/-- Claim C4 (amended): a request whose checks set contains no
recognized check name and whose contract list is empty verifies as
`valid = true` with `score = 1.0`, provided additionally that the
source parses successfully or the language is not the supported one
(the always-on syntax check is the only tier that can still fail such
a request). -/
theorem C4_vacuous_pass (parse : PyParser) (outc : ExecOutcome) (req : VerifyRequest)
    (hdoc : req.checks.contains "docstrings" = false)
    (hexec : req.checks.contains "execution" = false)
    (_hcontracts : req.contracts = [])
    (hsrc : langIsPython req.language = false ∨ ∃ m, parse req.code = Except.ok m) :
    (MyVerifier.verify parse outc req).valid = true ∧
    (MyVerifier.verify parse outc req).score = 1 := by
  have hsyn : syntaxStep parse req = (true, []) := by
    rcases hsrc with h | ⟨m, hm⟩
    · exact syntaxStep_not_python parse req h
    · exact syntaxStep_of_ok parse req m hm
  rw [verify_eq, docstringStep_not_requested parse req _ hdoc,
      executionStep_not_requested outc req _ hexec, hsyn]
  exact ⟨rfl, rfl⟩

/-- Claim C4 witness: a concrete request carrying only the
unrecognized check name "lint", no contracts, and parseable source
passes vacuously. -/
theorem C4_witness :
    reqUnrecognized.checks.contains "docstrings" = false ∧
    reqUnrecognized.checks.contains "execution" = false ∧
    reqUnrecognized.contracts = [] ∧
    (MyVerifier.verify parseAssign ExecOutcome.fileFail reqUnrecognized).valid = true ∧
    (MyVerifier.verify parseAssign ExecOutcome.fileFail reqUnrecognized).score = 1 := by
  have h := C4_vacuous_pass parseAssign ExecOutcome.fileFail reqUnrecognized
    (by decide) (by decide) rfl
    (Or.inr ⟨PyMod.module [PyStmt.otherStmt], rfl⟩)
  exact ⟨by decide, by decide, rfl, h.1, h.2⟩

/-- Claim C7: when the language guard admits the request and the parser
fails with error `e`, the response is invalid, the issue list contains
exactly one `SYNTAX_ERROR` issue — severity "error", message the parser
diagnostic, line 0 (unlocated), column the parser-reported offset — and
no `DOCSTRING_MISSING` issue, whatever checks were requested and
whatever the execution tier does. -/
theorem C7_parse_failure_behavior (parse : PyParser) (outc : ExecOutcome)
    (req : VerifyRequest) (e : ParseError)
    (hl : langIsPython req.language = true)
    (hp : parse req.code = Except.error e) :
    (MyVerifier.verify parse outc req).valid = false ∧
    ((MyVerifier.verify parse outc req).issues.filter
        fun i => i.code == "SYNTAX_ERROR") =
      [{ code := "SYNTAX_ERROR", message := e.error, severity := "error",
         line := 0, column := Int.ofNat e.offset }] ∧
    ((MyVerifier.verify parse outc req).issues.filter
        fun i => i.code == "DOCSTRING_MISSING") = [] := by
  have hsyn := syntaxStep_of_error parse req e hl hp
  rw [verify_eq, docstringStep_of_error parse req _ e hp, hsyn]
  have heq : (("SYNTAX_ERROR" : String) == "SYNTAX_ERROR") = true := by decide
  have hne : (("SYNTAX_ERROR" : String) == "DOCSTRING_MISSING") = false := by decide
  refine ⟨executionStep_valid_false outc req _ rfl, ?_, ?_⟩
  · rw [executionStep_filter outc req _ _ (by decide) (by decide) (by decide)]
    simp [List.filter_cons, heq]
  · rw [executionStep_filter outc req _ _ (by decide) (by decide) (by decide)]
    simp [List.filter_cons, hne]

/-- Claim C7 witness: on `def f(:` in the default language with both
checks requested and a spawn failure in the execution tier, the
response is invalid with exactly the one SYNTAX_ERROR issue at
column 7 and no docstring issue. -/
theorem C7_witness :
    langIsPython reqBadSyntax.language = true ∧
    (MyVerifier.verify parseFailing ExecOutcome.spawnFail reqBadSyntax).valid = false ∧
    ((MyVerifier.verify parseFailing ExecOutcome.spawnFail reqBadSyntax).issues.filter
        fun i => i.code == "SYNTAX_ERROR") =
      [{ code := "SYNTAX_ERROR", message := "invalid syntax. Got unexpected token :",
         severity := "error", line := 0, column := Int.ofNat 7 }] ∧
    ((MyVerifier.verify parseFailing ExecOutcome.spawnFail reqBadSyntax).issues.filter
        fun i => i.code == "DOCSTRING_MISSING") = [] := by
  have h := C7_parse_failure_behavior parseFailing ExecOutcome.spawnFail reqBadSyntax
    { error := "invalid syntax. Got unexpected token :", offset := 7 } (by decide) rfl
  exact ⟨by decide, h.1, h.2.1, h.2.2⟩

end Verifier

namespace Verifier

/-- Claim C2 (counterexample): on a parseable source with two top-level
definitions of which one is documented, the coverage ratio is exactly
one half — not below the threshold — yet a `DOCSTRING_MISSING` issue is
still emitted (the per-definition warning loop sits outside the
`ratio < 0.5` branch in the code), refuting "no DOCSTRING_MISSING issue
is emitted at all" for ratio ≥ 0.5. -/
theorem C2_counterexample :
    reqDocTwo.checks.contains "docstrings" = true ∧
    parseTwoDefs reqDocTwo.code = Except.ok (PyMod.module astTwoDefs) ∧
    ¬ ratioLtHalf (DocstringChecker.check DocstringChecker.new astTwoDefs).documented
        (DocstringChecker.check DocstringChecker.new astTwoDefs).total_definitions ∧
    ((MyVerifier.verify parseTwoDefs ExecOutcome.fileFail reqDocTwo).issues.filter
        fun i => i.code == "DOCSTRING_MISSING") = [perDefIssue "g"] :=
  ⟨by decide, rfl, by decide, by decide⟩

/-- Claim C2 (amended): for every parseable source with
`total_definitions > 0` and the "docstrings" check requested, the
emitted `DOCSTRING_MISSING` issues are exactly: one summary warning if
and only if `documented/total_definitions < 0.5`, followed — in either
case — by one per-definition warning for each undocumented definition
in traversal order, truncated after 5.  (The per-definition warnings
are thus emitted even when the ratio is at or above the threshold.) -/
theorem C2_amended (parse : PyParser) (outc : ExecOutcome) (req : VerifyRequest)
    (body : List PyStmt)
    (hreq : req.checks.contains "docstrings" = true)
    (hl : langIsPython req.language = true)
    (hp : parse req.code = Except.ok (PyMod.module body))
    (htot : 0 < (DocstringChecker.check DocstringChecker.new body).total_definitions) :
    ((MyVerifier.verify parse outc req).issues.filter
        fun i => i.code == "DOCSTRING_MISSING") =
      (if ratioLtHalf (DocstringChecker.check DocstringChecker.new body).documented
            (DocstringChecker.check DocstringChecker.new body).total_definitions then
         [summaryIssue (DocstringChecker.check DocstringChecker.new body).documented
            (DocstringChecker.check DocstringChecker.new body).total_definitions
            (((DocstringChecker.check DocstringChecker.new body).documented : ℚ) /
              ((DocstringChecker.check DocstringChecker.new body).total_definitions : ℚ))]
       else []) ++
      ((DocstringChecker.check DocstringChecker.new body).missing_docs.take 5).map
        perDefIssue := by
  have hsyn : syntaxStep parse req = (true, []) :=
    syntaxStep_of_ok parse req _ hp
  have hdoc : docstringStep parse req (true, []) =
      ((if ratioLtHalf (DocstringChecker.check DocstringChecker.new body).documented
            (DocstringChecker.check DocstringChecker.new body).total_definitions then
          false else true),
       (if ratioLtHalf (DocstringChecker.check DocstringChecker.new body).documented
            (DocstringChecker.check DocstringChecker.new body).total_definitions then
          [summaryIssue (DocstringChecker.check DocstringChecker.new body).documented
             (DocstringChecker.check DocstringChecker.new body).total_definitions
             (((DocstringChecker.check DocstringChecker.new body).documented : ℚ) /
               ((DocstringChecker.check DocstringChecker.new body).total_definitions : ℚ))]
        else []) ++
       ((DocstringChecker.check DocstringChecker.new body).missing_docs.take 5).map
         perDefIssue) := by
    unfold docstringStep
    rw [hreq, hl]
    simp only [Bool.and_self, if_true]
    rw [hp]
    simp only []
    rw [if_pos htot]
    by_cases hrat : ratioLtHalf
        (DocstringChecker.check DocstringChecker.new body).documented
        (DocstringChecker.check DocstringChecker.new body).total_definitions
    · rw [if_pos hrat, if_pos hrat, if_pos hrat]
      simp
    · rw [if_neg hrat, if_neg hrat, if_neg hrat]
  rw [verify_eq, hsyn, hdoc,
      executionStep_filter outc req _ _ (by decide) (by decide) (by decide)]
  refine List.filter_eq_self.mpr ?_
  intro i hi
  rcases List.mem_append.mp hi with h1 | h2
  · split at h1
    · rcases List.mem_singleton.mp h1 with rfl
      exact beq_self_eq_true "DOCSTRING_MISSING"
    · simp at h1
  · rcases List.mem_map.mp h2 with ⟨name, _, rfl⟩
    exact beq_self_eq_true "DOCSTRING_MISSING"

/-- Claim C2 witness: scenario A of the spec — one definition, zero
documented, ratio 0 — yields the summary warning followed by one
per-definition warning naming `f`. -/
theorem C2_witness :
    reqDocOne.checks.contains "docstrings" = true ∧
    0 < (DocstringChecker.check DocstringChecker.new astOneDef).total_definitions ∧
    ratioLtHalf (DocstringChecker.check DocstringChecker.new astOneDef).documented
      (DocstringChecker.check DocstringChecker.new astOneDef).total_definitions ∧
    ((MyVerifier.verify parseOneDef ExecOutcome.fileFail reqDocOne).issues.filter
        fun i => i.code == "DOCSTRING_MISSING") =
      [summaryIssue (DocstringChecker.check DocstringChecker.new astOneDef).documented
         (DocstringChecker.check DocstringChecker.new astOneDef).total_definitions
         (((DocstringChecker.check DocstringChecker.new astOneDef).documented : ℚ) /
           ((DocstringChecker.check DocstringChecker.new astOneDef).total_definitions : ℚ)),
       perDefIssue "f"] := by
  refine ⟨by decide, by decide, by decide, ?_⟩
  have h := C2_amended parseOneDef ExecOutcome.fileFail reqDocOne astOneDef
    (by decide) (by decide) rfl (by decide)
  rw [h, if_pos (by decide :
    ratioLtHalf (DocstringChecker.check DocstringChecker.new astOneDef).documented
      (DocstringChecker.check DocstringChecker.new astOneDef).total_definitions)]
  rfl

end Verifier
